import Mathlib

/-
  Shallow embedding of the Window Weather Monitor firmware
  (src/Arduino Code/WeatherMonitorV2.cpp).

  Machine integers are modelled as Nat / Int with explicit reductions
  modulo 2^32 (ESP32 unsigned long) and 2^8 (uint8_t) where the C code
  relies on overflow.  Float sensor values are modelled as Option Rat,
  where Option.none stands for a not-a-number reading; the control flow
  of the firmware only ever branches on isnan and on exact equality, so
  this abstraction is faithful for the properties below.  Calls into
  hardware drivers and the cloud SDK are passed in as explicit oracle
  arguments (the value millis() returns, the DHT readings, the success
  flag of sendTemperatureEvent, the raw keypad event).
-/

/-- 2^32, the modulus of the 32-bit unsigned long arithmetic on the ESP32. -/
def M32 : Nat := 4294967296

/-- Wraparound 32-bit unsigned subtraction a - b, as computed by the C
expression on two unsigned long values. -/
def wsub (a b : Nat) : Nat := (a % M32 + (M32 - b % M32)) % M32

/-- C conversion of a signed long value to unsigned long (reduction mod 2^32). -/
def toU32 (i : Int) : Nat := (i % (4294967296 : Int)).toNat

/-- C conversion of an int value to uint8_t (reduction mod 2^8). -/
def toU8 (i : Int) : Nat := (i % (256 : Int)).toNat

/-- EVENT_WAIT_TIME: send a temperature event every 60 seconds. -/
def EVENT_WAIT_TIME : Nat := 60000

/-- LM393_sample_interval: rain sensor sampled every 10 seconds; a signed
long in the source, hence Int here. -/
def LM393_sample_interval : Int := 10000

/-- check_interval from the source: compares the wraparound difference
between the current and the stored millis value against the interval
(converted long -> unsigned long as in C), updating the stored value on
success.  The first component is the returned Bool, the second the value
stored through the previousMillis pointer after the call. -/
def check_interval (previousMillis : Nat) (interval : Int) (currentMillis : Nat) :
    Bool × Nat :=
  if toU32 interval ≤ wsub currentMillis previousMillis then (true, currentMillis)
  else (false, previousMillis)

/-- The 4x4 keymap constant from the source, outer index first. -/
def keymap : List (List Char) :=
  [['1', '2', '3', 'A'],
   ['4', '5', '6', 'B'],
   ['7', '8', '9', 'C'],
   ['*', '0', '#', 'D']]

/-- The array access keymap[col][row] of the source; Option.none models an
access with an index outside the 4x4 bounds (the source performs the raw
read with no bounds check). -/
def keymapLookup (col row : Nat) : Option Char :=
  (keymap.get? col).bind (fun l => l.get? row)

/-- The decoding steps of get_key on a raw keypad event value k
(an 8-bit event register value, so reduced mod 256 first):
pressed = k AND 0x80, then k = k AND 0x7F, k--, row = k / 10,
col = k % 10, where the decrement and division happen in int
arithmetic (division truncating toward zero, as in C, hence
Int.tdiv / Int.tmod) and row, col are stored into uint8_t variables.
Result: (pressed, row, col). -/
def decode_key (k : Nat) : Bool × Nat × Nat :=
  let kv := k % 256
  let pressed := decide (128 ≤ kv)
  let k0 : Int := (kv % 128 : Nat)
  let k1 : Int := k0 - 1
  (pressed, toU8 (Int.tdiv k1 10), toU8 (Int.tmod k1 10))

/-- get_key from the source.  The argument is the pending raw event:
Option.none means keypad.available() was false, in which case the source
returns the char with code 0.  When an event is pending, the decoded
col / row pair indexes keymap[col][row]; a result of Option.none models
the unchecked out-of-bounds array access. -/
def get_key (ev : Option Nat) : Option Char :=
  match ev with
  | Option.none => some (Char.ofNat 0)
  | some k =>
    let d := decode_key k
    keymapLookup d.2.2 d.2.1

/-- The global mutable state of the firmware that the claims are about. -/
structure MonitorState where
  deviceIsOn : Bool
  temperature : Option ℚ
  humidity : Option ℚ
  lastTemperature : Option ℚ
  lastHumidity : Option ℚ
  lastEvent : Nat
  LM393_previous_millis : Nat
  globalToggleStates : String → Option Bool

/-- onToggleState callback: writes globalToggleStates[inst] = state and
returns true.  The String map of the source is modelled as a function
from keys to Option Bool. -/
def onToggleState (s : MonitorState) (deviceId inst : String) (state : Bool) :
    MonitorState × Bool :=
  ({ s with globalToggleStates :=
      fun i => if i = inst then some state else s.globalToggleStates i }, true)

/-- handleTemperaturesensor from the source.  Oracle arguments: the value
millis() returns on this tick, the two DHT driver readings (Option.none
is NaN), and whether sendTemperatureEvent succeeds if called.  The Bool
result records whether sendTemperatureEvent was called on this tick.
The source compares the fresh readings with the stored last values in an
if statement whose body is empty apart from a commented-out log line, so
that comparison has no effect and does not appear as a branch here. -/
def handleTemperaturesensor (s : MonitorState) (actualMillis : Nat)
    (dhtT dhtH : Option ℚ) (sendSuccess : Bool) : MonitorState × Bool :=
  if s.deviceIsOn = false then (s, false)
  else if wsub actualMillis s.lastEvent < EVENT_WAIT_TIME then (s, false)
  else
    let s1 := { s with temperature := dhtT, humidity := dhtH }
    match dhtT, dhtH with
    | some t, some h =>
      if sendSuccess then
        ({ s1 with lastTemperature := some t, lastHumidity := some h,
                   lastEvent := actualMillis }, true)
      else (s1, true)
    | _, _ => (s1, false)

/-- handleRainSensor from the source.  Oracle arguments: the millis()
value and the raw analogRead / digitalRead results.  The returned list
holds the (analog, digital) pair that was read and logged, empty when the
interval gate did not fire; the raw values are logged unfiltered. -/
def handleRainSensor (s : MonitorState) (currentMillis : Nat)
    (rainAnalogVal rainDigitalVal : Int) : MonitorState × List (Int × Int) :=
  let r := check_interval s.LM393_previous_millis LM393_sample_interval currentMillis
  if r.1 then
    ({ s with LM393_previous_millis := r.2 }, [(rainAnalogVal, rainDigitalVal)])
  else
    ({ s with LM393_previous_millis := r.2 }, [])

/-- handleKeypad from the source: its whole body is commented out
(a TODO), so it neither reads an event nor changes any state. -/
def handleKeypad (s : MonitorState) : MonitorState := s

/-- handleDisplay from the source: prints the current temperature and
humidity globals; the second component is the forwarded pair. -/
def handleDisplay (s : MonitorState) : MonitorState × (Option ℚ × Option ℚ) :=
  (s, (s.temperature, s.humidity))

/-- One observable handler invocation inside loop(). -/
inductive LoopEv where
  | sinric : LoopEv
  | keypad : LoopEv
  | rain : LoopEv
  | temp : LoopEv
  | display : Option ℚ → Option ℚ → LoopEv
deriving DecidableEq

/-- The oracle inputs one iteration of loop() consumes: an optional
toggle callback delivered by SinricPro.handle, the millis() values seen
by the two gated handlers, the raw rain reads, the DHT reads and the
report success flag. -/
structure LoopInputs where
  sinricToggle : Option (String × String × Bool)
  nowRain : Nat
  rainA : Int
  rainD : Int
  nowTemp : Nat
  dhtT : Option ℚ
  dhtH : Option ℚ
  sendOk : Bool

/-- One iteration of loop() from the source: SinricPro.handle, then
handleKeypad, handleRainSensor, handleTemperaturesensor, handleDisplay,
each called unconditionally in that order.  The trace records each
handler invocation; the display event carries the forwarded pair. -/
def loopTick (s : MonitorState) (ins : LoopInputs) : MonitorState × List LoopEv :=
  let s0 := match ins.sinricToggle with
    | some (d, i, st) => (onToggleState s d i st).1
    | Option.none => s
  let s1 := handleKeypad s0
  let s2 := (handleRainSensor s1 ins.nowRain ins.rainA ins.rainD).1
  let s3 := (handleTemperaturesensor s2 ins.nowTemp ins.dhtT ins.dhtH ins.sendOk).1
  let s4d := handleDisplay s3
  (s4d.1, [LoopEv.sinric, LoopEv.keypad, LoopEv.rain, LoopEv.temp,
           LoopEv.display s4d.2.1 s4d.2.2])

/-- Window verdict of the actuation policy. -/
inductive WindowVerdict where
  | Open : WindowVerdict
  | Closed : WindowVerdict
deriving DecidableEq

/-- Alert reason attached to a verdict; NoAlert is the None of the spec. -/
inductive AlertReason where
  | NoAlert : AlertReason
  | TempLow : AlertReason
  | TempHigh : AlertReason
  | HumidityOut : AlertReason
  | Rain : AlertReason
deriving DecidableEq

/-- A validated sensor reading as in the spec data model. -/
structure Reading where
  temperature : ℚ
  humidity : ℚ
  valid : Bool
  timestamp : Nat

/-- Rain sensor state as in the spec data model. -/
structure RainState where
  analogLevel : Int
  isWet : Bool
  timestamp : Nat

/-- Configurable actuation thresholds as in the spec data model. -/
structure Thresholds where
  tempLow : ℚ
  tempHigh : ℚ
  humidityTarget : ℚ
  humidityTolerance : ℚ

/-- Executable absolute value on the rationals (kernel-reducible form of
abs, used for the humidity distance in the policy). -/
def absQ (x : ℚ) : ℚ := if x < 0 then -x else x

/-- Modelled from the spec: the repository contains no evaluate function;
the actuation policy exists only as prose in the file header comment of
WeatherMonitorV2.cpp (lines 31 to 34) and as the decision order of spec
section 4.5.  First match wins: Rain, then TempLow, then TempHigh, then
HumidityOut, else Open with no alert. -/
def evaluate (r : Reading) (rain : RainState) (t : Thresholds) :
    WindowVerdict × AlertReason :=
  if rain.isWet then (WindowVerdict.Closed, AlertReason.Rain)
  else if r.temperature < t.tempLow then (WindowVerdict.Closed, AlertReason.TempLow)
  else if t.tempHigh < r.temperature then (WindowVerdict.Closed, AlertReason.TempHigh)
  else if t.humidityTolerance < absQ (r.humidity - t.humidityTarget) then
    (WindowVerdict.Closed, AlertReason.HumidityOut)
  else (WindowVerdict.Open, AlertReason.NoAlert)

/-- Modelled from the spec: the edge-triggered push-notification policy of
spec section 4.5 is not implemented in the source (sendPushNotification
there is a bare forwarding helper); the spec mandates tracking the
previously emitted verdict and reason and dispatching on change into a
Closed verdict with an alert.  Result: the number of dispatches this
evaluation produces (0 or 1). -/
def notifyStep (prev cur : WindowVerdict × AlertReason) : Nat :=
  if cur ≠ prev ∧ cur.1 = WindowVerdict.Closed ∧ cur.2 ≠ AlertReason.NoAlert
  then 1 else 0

/-- Total number of push-notification dispatches over a sequence of
evaluation results, threading the previously emitted verdict through. -/
def notifyCount (prev : WindowVerdict × AlertReason) :
    List (WindowVerdict × AlertReason) → Nat
  | [] => 0
  | cur :: rest => notifyStep prev cur + notifyCount cur rest

/-- Helper: while the evaluation result stays equal to the tracked
previous verdict, no dispatch happens. -/
theorem notifyCount_replicate_self (cur : WindowVerdict × AlertReason) (n : Nat) :
    notifyCount cur (List.replicate n cur) = 0 := by
  induction n with
  | zero => rfl
  | succ m ih =>
    simp only [List.replicate_succ, notifyCount, notifyStep, ih]
    simp

/-- A concrete state used to instantiate the hypotheses of the theorems
below at executable inputs. -/
def s0 : MonitorState :=
  { deviceIsOn := true
    temperature := some 20
    humidity := some 40
    lastTemperature := some 21
    lastHumidity := some 41
    lastEvent := 0
    LM393_previous_millis := 0
    globalToggleStates := fun _ => Option.none }

/-- C2: check_interval returns true and stores the current millis value
exactly when the wraparound 32-bit unsigned difference between the current
and the stored value is at least the interval, and otherwise returns false
leaving the stored value unchanged; wsub is exactly the difference mod
2^32, so the behaviour is preserved across clock wraparound. -/
theorem check_interval_correct (prev now : Nat) (interval : Int)
    (h0 : 0 ≤ interval) (h1 : interval < 2147483648) :
    (interval.toNat ≤ wsub now prev →
      check_interval prev interval now = (true, now))
    ∧ (wsub now prev < interval.toNat →
      check_interval prev interval now = (false, prev))
    ∧ toU32 interval = interval.toNat
    ∧ wsub now prev = (((now : ℤ) - (prev : ℤ)) % (4294967296 : ℤ)).toNat := by
  have hU : toU32 interval = interval.toNat := by
    unfold toU32
    omega
  refine ⟨?_, ?_, hU, ?_⟩
  · intro h
    unfold check_interval
    rw [hU, if_pos h]
  · intro h
    unfold check_interval
    rw [hU, if_neg (by omega)]
  · unfold wsub M32
    omega

/-- Witness for C2, at clock values that wrap from near the 32-bit
maximum back past 0: the gate fires once at least 10000 ms have elapsed
across the wrap, and not before. -/
theorem check_interval_correct_witness :
    check_interval 4294966296 10000 9001 = (true, 9001)
    ∧ check_interval 4294966296 10000 8999 = (false, 4294966296) :=
  ⟨(check_interval_correct 4294966296 9001 10000 (by decide) (by decide)).1 (by decide),
   (check_interval_correct 4294966296 8999 10000 (by decide) (by decide)).2.1 (by decide)⟩

/-- C8: handleRainSensor is gated by its own 10 second timer, distinct
from the 60 second temperature timer; it changes no state except its own
timer field, applies no validity filtering to the raw analog and digital
values (whenever the gate fires they are logged exactly as read), and the
timer is set to the current millis value exactly when the gate fires. -/
theorem handleRainSensor_frame (s : MonitorState) (now : Nat) (a d : Int) :
    ((handleRainSensor s now a d).1.deviceIsOn = s.deviceIsOn)
    ∧ ((handleRainSensor s now a d).1.temperature = s.temperature)
    ∧ ((handleRainSensor s now a d).1.humidity = s.humidity)
    ∧ ((handleRainSensor s now a d).1.lastTemperature = s.lastTemperature)
    ∧ ((handleRainSensor s now a d).1.lastHumidity = s.lastHumidity)
    ∧ ((handleRainSensor s now a d).1.lastEvent = s.lastEvent)
    ∧ ((handleRainSensor s now a d).1.globalToggleStates = s.globalToggleStates)
    ∧ ((handleRainSensor s now a d).1.LM393_previous_millis =
        if toU32 LM393_sample_interval ≤ wsub now s.LM393_previous_millis
        then now else s.LM393_previous_millis)
    ∧ ((handleRainSensor s now a d).2 =
        if toU32 LM393_sample_interval ≤ wsub now s.LM393_previous_millis
        then [(a, d)] else [])
    ∧ LM393_sample_interval = 10000 ∧ EVENT_WAIT_TIME = 60000 := by
  refine ⟨?_, ?_, ?_, ?_, ?_, ?_, ?_, ?_, ?_, rfl, rfl⟩ <;>
    by_cases h : toU32 LM393_sample_interval ≤ wsub now s.LM393_previous_millis <;>
    simp [handleRainSensor, check_interval, h]

/-- C9: one iteration of loop invokes the keypad, rain, temperature and
display handlers exactly once each, in that order, for every state and
every oracle input (in particular for inputs on which a handler returns
early), and the display handler is always reached and forwarded the
current temperature and humidity globals. -/
theorem loopTick_runs_all_handlers (s : MonitorState) (ins : LoopInputs) :
    (loopTick s ins).2 =
      [LoopEv.sinric, LoopEv.keypad, LoopEv.rain, LoopEv.temp,
       LoopEv.display (loopTick s ins).1.temperature (loopTick s ins).1.humidity] :=
  rfl

/-- C10: onToggleState writes exactly the one toggle map entry named by
the instance argument (last writer wins), leaves every other key and
every other state field, deviceIsOn included, unchanged, and always
returns true. -/
theorem onToggleState_spec (s : MonitorState) (deviceId inst : String) (st : Bool) :
    ((onToggleState s deviceId inst st).2 = true)
    ∧ ((onToggleState s deviceId inst st).1.globalToggleStates inst = some st)
    ∧ (∀ j, j ≠ inst →
        (onToggleState s deviceId inst st).1.globalToggleStates j = s.globalToggleStates j)
    ∧ ((onToggleState s deviceId inst st).1.deviceIsOn = s.deviceIsOn)
    ∧ ((onToggleState s deviceId inst st).1.temperature = s.temperature)
    ∧ ((onToggleState s deviceId inst st).1.humidity = s.humidity)
    ∧ ((onToggleState s deviceId inst st).1.lastTemperature = s.lastTemperature)
    ∧ ((onToggleState s deviceId inst st).1.lastHumidity = s.lastHumidity)
    ∧ ((onToggleState s deviceId inst st).1.lastEvent = s.lastEvent)
    ∧ ((onToggleState s deviceId inst st).1.LM393_previous_millis = s.LM393_previous_millis) := by
  refine ⟨rfl, by simp [onToggleState], ?_, rfl, rfl, rfl, rfl, rfl, rfl, rfl⟩
  intro j hj
  simp [onToggleState, hj]

/-- Witness for C10 at concrete strings: the written key reads back the
written value and a different key is untouched. -/
theorem onToggleState_spec_witness :
    ((onToggleState s0 "deviceid" "toggleInstance1" true).1.globalToggleStates
        "toggleInstance1" = some true)
    ∧ ((onToggleState s0 "deviceid" "toggleInstance1" true).1.globalToggleStates
        "other" = s0.globalToggleStates "other") :=
  ⟨(onToggleState_spec s0 "deviceid" "toggleInstance1" true).2.1,
   (onToggleState_spec s0 "deviceid" "toggleInstance1" true).2.2.1 "other" (by decide)⟩

/-- C6: for every pending raw keypad event, get_key strips the press bit,
decrements the remaining 1-based index to 0-based, computes row as the
index divided by 10 and col as the index mod 10, and returns the symbol
keymap[col][row]; in particular the raw event 150 (index 22, that is
row 2 and col 1, with the press bit 0x80 set) decodes with a press edge
to the symbol at keymap[1][2], the char 6. -/
theorem get_key_decodes (k : Nat) (hk : 1 ≤ k % 256 % 128) :
    get_key (some k)
      = keymapLookup ((k % 256 % 128 - 1) % 10) ((k % 256 % 128 - 1) / 10)
    ∧ decode_key 150 = (true, 2, 1)
    ∧ get_key (some 150) = some '6' := by
  refine ⟨?_, by decide, by decide⟩
  have hlt : k % 256 % 128 < 128 := Nat.mod_lt _ (by decide)
  have key : ∀ m : Nat, m < 128 → 1 ≤ m →
      keymapLookup (toU8 (Int.tmod ((m : ℤ) - 1) 10)) (toU8 (Int.tdiv ((m : ℤ) - 1) 10))
        = keymapLookup ((m - 1) % 10) ((m - 1) / 10) := by decide
  have hmain := key (k % 256 % 128) hlt hk
  simpa [get_key, decode_key] using hmain

/-- Witness for C6 at the concrete raw event 22 (release edge): the
general decode equation instantiated and its hypothesis discharged. -/
theorem get_key_decodes_witness :
    get_key (some 22)
      = keymapLookup ((22 % 256 % 128 - 1) % 10) ((22 % 256 % 128 - 1) / 10) :=
  (get_key_decodes 22 (by decide)).1

/-- C7: a raw keypad event exists whose decoded column lies outside the
4x4 keymap (no bounds check exists in get_key), and get_key performs the
keymap[col][row] lookup anyway, reaching the out-of-range access (the
Option.none result of the modelled array read): raw event 0x80 decodes
to col 255 after the int decrement wraps through the uint8_t store. -/
theorem get_key_unchecked_out_of_range :
    ∃ k : Nat, 4 ≤ (decode_key k).2.2 ∧ get_key (some k) = Option.none :=
  ⟨128, by decide, by decide⟩

/-- C3: on every tick on which the sample is not accepted (a NaN
temperature or humidity from the driver, or a sendTemperatureEvent
failure), handleTemperaturesensor leaves the baseline lastTemperature,
lastHumidity and lastEvent exactly as before the tick: a new reading is
never promoted on an error path. -/
theorem handleTemp_error_preserves_baseline (s : MonitorState) (now : Nat)
    (dhtT dhtH : Option ℚ) (sendSuccess : Bool)
    (herr : dhtT = Option.none ∨ dhtH = Option.none ∨ sendSuccess = false) :
    ((handleTemperaturesensor s now dhtT dhtH sendSuccess).1.lastTemperature
      = s.lastTemperature)
    ∧ ((handleTemperaturesensor s now dhtT dhtH sendSuccess).1.lastHumidity
      = s.lastHumidity)
    ∧ ((handleTemperaturesensor s now dhtT dhtH sendSuccess).1.lastEvent
      = s.lastEvent) := by
  cases dhtT with
  | none =>
    unfold handleTemperaturesensor
    split_ifs <;> cases dhtH <;> simp
  | some t =>
    cases dhtH with
    | none =>
      unfold handleTemperaturesensor
      split_ifs <;> simp
    | some hh =>
      have hs : sendSuccess = false := by
        rcases herr with h | h | h
        · exact absurd h (by simp)
        · exact absurd h (by simp)
        · exact h
      subst hs
      unfold handleTemperaturesensor
      split_ifs <;> simp_all

/-- Witness for C3: NaN temperature on a tick whose gate is open; the
baseline fields of the concrete state s0 survive untouched. -/
theorem handleTemp_error_preserves_baseline_witness :
    ((handleTemperaturesensor s0 70000 Option.none (some 30) true).1.lastTemperature
      = s0.lastTemperature)
    ∧ ((handleTemperaturesensor s0 70000 Option.none (some 30) true).1.lastHumidity
      = s0.lastHumidity)
    ∧ ((handleTemperaturesensor s0 70000 Option.none (some 30) true).1.lastEvent
      = s0.lastEvent) :=
  handleTemp_error_preserves_baseline s0 70000 Option.none (some 30) true (Or.inl rfl)

/-- C4: every non-NaN sample that passes the device-on check and the
interval gate is forwarded to sendTemperatureEvent, for every baseline
(equality with the last accepted reading included) and for every report
outcome: the comparison against the baseline never suppresses the call. -/
theorem handleTemp_always_sends (s : MonitorState) (now : Nat) (t h : ℚ)
    (sendSuccess : Bool) (hOn : s.deviceIsOn = true)
    (hGate : EVENT_WAIT_TIME ≤ wsub now s.lastEvent) :
    (handleTemperaturesensor s now (some t) (some h) sendSuccess).2 = true := by
  unfold handleTemperaturesensor
  rw [if_neg (by simp [hOn]), if_neg (by omega)]
  cases sendSuccess <;> rfl

/-- Witness for C4: the fresh sample equals the baseline of s0 (same
temperature and humidity) and reporting even fails, yet the send call is
still made. -/
theorem handleTemp_always_sends_witness :
    (handleTemperaturesensor s0 60000 (some 21) (some 41) false).2 = true :=
  handleTemp_always_sends s0 60000 21 41 false rfl (by decide)

/-- C5: across any sequence of policy evaluations, a transition into a
Closed verdict with an alert reason dispatches exactly one notification,
and repeated evaluations with the same verdict and reason dispatch no
further notification until the pair changes: over a transition followed
by any number of identical evaluations the total dispatch count is one. -/
theorem notify_once_per_transition (prev cur : WindowVerdict × AlertReason) (n : Nat)
    (hC : cur.1 = WindowVerdict.Closed) (hR : cur.2 ≠ AlertReason.NoAlert)
    (hNe : cur ≠ prev) :
    notifyCount prev (cur :: List.replicate n cur) = 1 := by
  simp only [notifyCount]
  rw [notifyCount_replicate_self]
  simp [notifyStep, hC, hR, hNe]

/-- Witness for C5: from an Open no-alert state, a Closed Rain verdict
followed by five identical evaluations dispatches exactly once. -/
theorem notify_once_per_transition_witness :
    notifyCount (WindowVerdict.Open, AlertReason.NoAlert)
      ((WindowVerdict.Closed, AlertReason.Rain)
        :: List.replicate 5 (WindowVerdict.Closed, AlertReason.Rain)) = 1 :=
  notify_once_per_transition (WindowVerdict.Open, AlertReason.NoAlert)
    (WindowVerdict.Closed, AlertReason.Rain) 5 rfl (by decide) (by decide)

/-- C1: with a dry rain state, evaluate returns Open exactly when the
temperature lies between tempLow and tempHigh and the humidity is within
humidityTolerance of humidityTarget; in every other case it returns
Closed with the first matching reason in the priority order Rain,
TempLow, TempHigh, HumidityOut (Rain never matching when dry), and an
Open verdict always carries no alert reason. -/
theorem evaluate_open_iff (t : Thresholds) (r : Reading) (rs : RainState)
    (hdry : rs.isWet = false) :
    ((evaluate r rs t).1 = WindowVerdict.Open ↔
      (t.tempLow ≤ r.temperature ∧ r.temperature ≤ t.tempHigh
        ∧ absQ (r.humidity - t.humidityTarget) ≤ t.humidityTolerance))
    ∧ (r.temperature < t.tempLow →
        evaluate r rs t = (WindowVerdict.Closed, AlertReason.TempLow))
    ∧ (t.tempLow ≤ r.temperature → t.tempHigh < r.temperature →
        evaluate r rs t = (WindowVerdict.Closed, AlertReason.TempHigh))
    ∧ (t.tempLow ≤ r.temperature → r.temperature ≤ t.tempHigh →
        t.humidityTolerance < absQ (r.humidity - t.humidityTarget) →
        evaluate r rs t = (WindowVerdict.Closed, AlertReason.HumidityOut))
    ∧ ((evaluate r rs t).1 = WindowVerdict.Open →
        (evaluate r rs t).2 = AlertReason.NoAlert) := by
  unfold evaluate
  rw [hdry]
  simp only [Bool.false_eq_true, if_false]
  split_ifs with h1 h2 h3
  · refine ⟨⟨fun hc => absurd hc (by decide), fun hok => absurd h1 (not_lt.2 hok.1)⟩,
      fun _ => rfl,
      fun hl _ => absurd h1 (not_lt.2 hl),
      fun hl _ _ => absurd h1 (not_lt.2 hl),
      fun hc => absurd hc (by decide)⟩
  · refine ⟨⟨fun hc => absurd hc (by decide), fun hok => absurd h2 (not_lt.2 hok.2.1)⟩,
      fun hl => absurd hl h1,
      fun _ _ => rfl,
      fun _ hh _ => absurd h2 (not_lt.2 hh),
      fun hc => absurd hc (by decide)⟩
  · refine ⟨⟨fun hc => absurd hc (by decide), fun hok => absurd h3 (not_lt.2 hok.2.2)⟩,
      fun hl => absurd hl h1,
      fun _ hh => absurd hh (not_lt.2 (le_of_not_lt h2)),
      fun _ _ _ => rfl,
      fun hc => absurd hc (by decide)⟩
  · exact ⟨⟨fun _ => ⟨le_of_not_lt h1, le_of_not_lt h2, le_of_not_lt h3⟩, fun _ => rfl⟩,
      fun hl => absurd hl h1,
      fun _ hh => absurd hh h2,
      fun _ _ hu => absurd hu h3,
      fun _ => rfl⟩

/-- Witness for C1 at the scenario of the spec: temperature 22 and
humidity 50 against thresholds 15 to 28 with target 50 tolerance 10,
rain dry, gives the Open verdict. -/
theorem evaluate_open_iff_witness :
    (evaluate { temperature := 22, humidity := 50, valid := true, timestamp := 0 }
      { analogLevel := 0, isWet := false, timestamp := 0 }
      { tempLow := 15, tempHigh := 28, humidityTarget := 50,
        humidityTolerance := 10 }).1 = WindowVerdict.Open :=
  ((evaluate_open_iff
      { tempLow := 15, tempHigh := 28, humidityTarget := 50, humidityTolerance := 10 }
      { temperature := 22, humidity := 50, valid := true, timestamp := 0 }
      { analogLevel := 0, isWet := false, timestamp := 0 } rfl).1).2
    ⟨by decide, by decide, by simp [absQ]⟩
